import Mathlib

/-!
Verification of the Liberty Rider Home Assistant integration
(`src/sensor.py`, `src/liberty_rider/custom_components/config_flow.py`,
`src/liberty_rider/custom_components/const.py`).

The Python code is shallowly embedded: JSON-ish Python values become the
inductive `JVal` (numbers are modelled exactly as rationals), fallible
Python operations become `Except PyErr` computations whose error
constructors mirror the exception classes the source can raise, and each
reader property of `sensor.py` becomes a total Lean function that applies
the same `try/except` filtering as the source.
-/

/-- A JSON-like Python value, as handled by `sensor.py`.  Python `None` is
`JVal.null`; a JSON integer literal parses (via `response.json()`) to an
arbitrary-precision Python `int`, modelled by `JVal.int`; a JSON number
with a fraction or exponent parses to a Python `float`, modelled exactly
as a rational by `JVal.num`; dicts are association lists with (in all
inputs considered) unique keys, looked up front-to-back. -/
inductive JVal where
  | null : JVal
  | bool (b : Bool) : JVal
  | int (z : ℤ) : JVal
  | num (q : ℚ) : JVal
  | str (s : String) : JVal
  | arr (xs : List JVal) : JVal
  | obj (fields : List (String × JVal)) : JVal

/-- The Python exception classes that the embedded code can raise.
`overflowError` is what `float()` (and int/int true division) raises when
the result exceeds the double range; it is an `ArithmeticError`, not a
subclass of any of the other four. -/
inductive PyErr where
  | keyError : PyErr
  | typeError : PyErr
  | attributeError : PyErr
  | valueError : PyErr
  | indexError : PyErr
  | overflowError : PyErr
deriving DecidableEq, Repr

/-- First-match association-list lookup (Python `dict` access for the
unique-key dicts that occur here). -/
def lookupJ : List (String × JVal) → String → Option JVal
  | [], _ => none
  | (k, v) :: rest, key => if k = key then some v else lookupJ rest key

/-- Python truthiness (`bool(v)`) for the modelled value shapes. -/
def truthy : JVal → Bool
  | .null => false
  | .bool b => b
  | .int z => z ≠ 0
  | .num q => q ≠ 0
  | .str s => s ≠ ""
  | .arr xs => !xs.isEmpty
  | .obj fs => !fs.isEmpty

/-- `v.get(key)`: only dicts have `.get`; a missing key yields Python
`None` (`JVal.null`); any other receiver raises `AttributeError`. -/
def pyGet (v : JVal) (key : String) : Except PyErr JVal :=
  match v with
  | .obj fs => .ok ((lookupJ fs key).getD .null)
  | _ => .error .attributeError

/-- `v.get(key, default)`. -/
def pyGetD (v : JVal) (key : String) (dflt : JVal) : Except PyErr JVal :=
  match v with
  | .obj fs => .ok ((lookupJ fs key).getD dflt)
  | _ => .error .attributeError

/-- `v[key]` with a string key: `KeyError` on a dict without the key,
`TypeError` on lists, strings, numbers, booleans and `None`. -/
def pySubStr (v : JVal) (key : String) : Except PyErr JVal :=
  match v with
  | .obj fs =>
    match lookupJ fs key with
    | some w => .ok w
    | none => .error .keyError
  | _ => .error .typeError

/-- `v[-1]`: last element of a list or string (`IndexError` when empty),
`KeyError` on a string-keyed dict, `TypeError` otherwise. -/
def pySubLast (v : JVal) : Except PyErr JVal :=
  match v with
  | .arr xs =>
    match xs.getLast? with
    | some x => .ok x
    | none => .error .indexError
  | .str s =>
    match s.data.getLast? with
    | some c => .ok (.str (String.mk [c]))
    | none => .error .indexError
  | .obj _ => .error .keyError
  | _ => .error .typeError

/-- Digits of a decimal numeral, as a natural number. -/
def digitsVal (cs : List Char) : ℕ :=
  cs.foldl (fun a c => a * 10 + (c.toNat - 48)) 0

/-- Whether every character is an ASCII digit. -/
def allDigits (cs : List Char) : Bool :=
  cs.all fun c => '0' ≤ c && c ≤ '9'

/-- Models Python `float(s)` on plain decimal literals: optional sign,
digits, optional fractional part.  Exponent/`inf`/`nan`/whitespace forms
are not modelled (they never occur in the verified properties); every
unmodelled string maps to `none`, i.e. `ValueError`, which the readers
catch identically. -/
def parseSimpleFloat (s : String) : Option ℚ :=
  let signed : ℚ × List Char :=
    match s.data with
    | '-' :: r => (-1, r)
    | '+' :: r => (1, r)
    | cs => (1, cs)
  match signed.2.splitOn '.' with
  | [ip] =>
    if ip ≠ [] ∧ allDigits ip then some (signed.1 * digitsVal ip) else none
  | [ip, fp] =>
    if (ip ≠ [] ∨ fp ≠ []) ∧ allDigits ip ∧ allDigits fp then
      some (signed.1 * ((digitsVal ip : ℚ) + (digitsVal fp : ℚ) / 10 ^ fp.length))
    else none
  | _ => none

/-- `float(v)`: floats pass through (exactly, in this rational model),
booleans become 0/1, strings are parsed (`ValueError` on failure;
out-of-range string literals produce `inf`, not an exception, so no
overflow arises there), and everything non-numeric raises `TypeError`.
A Python `int` of magnitude at least `2 ^ 1024` is outside the double
range and raises `OverflowError` — CPython's exact boundary is the
half-ulp rounding cutoff just below `2 ^ 1024`, a float-representation
detail immaterial to the verified properties. -/
def pyFloat (v : JVal) : Except PyErr ℚ :=
  match v with
  | .num q => .ok q
  | .int z =>
    if 2 ^ 1024 ≤ z ∨ z ≤ -(2 ^ 1024) then .error .overflowError else .ok (z : ℚ)
  | .bool b => .ok (if b then 1 else 0)
  | .str s =>
    match parseSimpleFloat s with
    | some q => .ok q
    | none => .error .valueError
  | _ => .error .typeError

/-- `v / k` for a nonzero numeric literal `k`: floats, ints and booleans
divide (true division yields a float; an int quotient beyond the double
range raises `OverflowError`, with the same boundary idealization as
`pyFloat`), every other operand raises `TypeError`. -/
def pyDivNum (v : JVal) (k : ℚ) : Except PyErr ℚ :=
  match v with
  | .num q => .ok (q / k)
  | .int z =>
    if (2 ^ 1024 : ℚ) ≤ |(z : ℚ) / k| then .error .overflowError else .ok ((z : ℚ) / k)
  | .bool b => .ok ((if b then (1 : ℚ) else 0) / k)
  | _ => .error .typeError

/-- `v * n` for a natural-number literal `n`: numbers and booleans
multiply; strings and lists repeat; dicts and `None` raise `TypeError`. -/
def pyMulNat (v : JVal) (n : ℕ) : Except PyErr JVal :=
  match v with
  | .num q => .ok (.num (q * n))
  | .int z => .ok (.int (z * n))
  | .bool b => .ok (.num ((if b then (1 : ℚ) else 0) * n))
  | .str s => .ok (.str (String.join (List.replicate n s)))
  | .arr xs => .ok (.arr (List.flatten (List.replicate n xs)))
  | _ => .error .typeError

/-- Python `int(q)` on a number: truncation toward zero. -/
def pyInt (q : ℚ) : ℤ :=
  if 0 ≤ q then ⌊q⌋ else ⌈q⌉

/-- Round-half-to-even of a rational to an integer (Python's `round`
convention; numbers are modelled exactly, so no binary-float
representation error appears). -/
def roundHalfEven (q : ℚ) : ℤ :=
  if q - ⌊q⌋ < 1 / 2 then ⌊q⌋
  else if 1 / 2 < q - ⌊q⌋ then ⌊q⌋ + 1
  else if ⌊q⌋ % 2 = 0 then ⌊q⌋ else ⌊q⌋ + 1

/-- Python `round(x, n)` on an (exact) number. -/
def pyRound (q : ℚ) (n : ℕ) : ℚ :=
  (roundHalfEven (q * 10 ^ n) : ℚ) / 10 ^ n

/-- `round(v, n)` as used in `extra_state_attributes`: only numeric
operands round; anything else raises `TypeError`. -/
def pyRoundJ (v : Except PyErr JVal) (n : ℕ) : Except PyErr JVal :=
  match v with
  | .error e => .error e
  | .ok (.num q) => .ok (.num (pyRound q n))
  | .ok (.int z) => .ok (.int z)
  | .ok (.bool b) => .ok (.num (pyRound (if b then 1 else 0) n))
  | .ok _ => .error .typeError

/-- `s.lower()` (ASCII lowering; the state strings handled here are
ASCII): `AttributeError` on non-strings. -/
def pyLower (v : JVal) : Except PyErr String :=
  match v with
  | .str s => .ok (s.map Char.toLower)
  | _ => .error .attributeError

/-- Structural Python equality as needed here: comparing a value against
a string literal (`v == "RIDE_ACTIVE"`); distinct types compare unequal
without raising. -/
def pyEqStr (v : JVal) (s : String) : Bool :=
  match v with
  | .str t => t = s
  | _ => false

/-- `v in [s₁, s₂, ...]` for a list of string literals. -/
def pyInStrList (v : JVal) (ss : List String) : Bool :=
  ss.any (pyEqStr v)

mutual

/-- Boolean structural equality on `JVal` (Python `==` for the modelled
value shapes). -/
def jEq : JVal → JVal → Bool
  | .null, .null => true
  | .bool a, .bool b => a = b
  | .int a, .int b => a = b
  | .int a, .num b => b = a
  | .num a, .int b => a = b
  | .num a, .num b => a = b
  | .str a, .str b => a = b
  | .arr xs, .arr ys => jEqList xs ys
  | .obj fs, .obj gs => jEqFields fs gs
  | _, _ => false

def jEqList : List JVal → List JVal → Bool
  | [], [] => true
  | x :: xs, y :: ys => jEq x y && jEqList xs ys
  | _, _ => false

def jEqFields : List (String × JVal) → List (String × JVal) → Bool
  | [], [] => true
  | (k, x) :: xs, (l, y) :: ys => k = l && jEq x y && jEqFields xs ys
  | _, _ => false

end

/-- Whether `sub` is a leading segment of `cs`. -/
def startsList : List Char → List Char → Bool
  | [], _ => true
  | _ :: _, [] => false
  | a :: as, b :: bs => a = b && startsList as bs

/-- Whether `sub` occurs contiguously inside `cs`. -/
def occursIn (sub : List Char) : List Char → Bool
  | [] => startsList sub []
  | c :: rest => startsList sub (c :: rest) || occursIn sub rest

/-- Whether `sub` occurs as a contiguous substring of `s`. -/
def strContains (s sub : String) : Bool :=
  occursIn sub.data s.data

/-- `needle in container` (membership test): key membership on dicts,
element membership on lists, substring on strings (where the needle must
itself be a string), `TypeError` otherwise. -/
def pyInOp (needle : JVal) (container : JVal) : Except PyErr Bool :=
  match container with
  | .obj fs =>
    match needle with
    | .str k => .ok ((lookupJ fs k).isSome)
    | _ => .ok false
  | .arr xs => .ok (xs.any (jEq needle))
  | .str s =>
    match needle with
    | .str sub => .ok (strContains s sub)
    | _ => .error .typeError
  | _ => .error .typeError

/-- Basic shape check standing in for `datetime.fromisoformat`: the
modelled parser accepts `YYYY-MM-DD[THH:MM:SS[...]]`-shaped strings and
raises `ValueError` otherwise.  No verified property depends on calendar
arithmetic, so the parsed instant is represented by the input string. -/
def isoLike (s : String) : Bool :=
  match s.data with
  | y1 :: y2 :: y3 :: y4 :: '-' :: m1 :: m2 :: '-' :: d1 :: d2 :: rest =>
    allDigits [y1, y2, y3, y4, m1, m2, d1, d2] &&
      (rest = [] ||
        match rest with
        | 'T' :: h1 :: h2 :: ':' :: n1 :: n2 :: ':' :: s1 :: s2 :: _ =>
          allDigits [h1, h2, n1, n2, s1, s2]
        | _ => false)
  | _ => false

/-- `datetime.fromisoformat(s)` as a validation step (see `isoLike`). -/
def pyFromIsoformat (s : String) : Except PyErr String :=
  if isoLike s then .ok s else .error .valueError

/-!
## URL/Token extraction

`LibertyRiderCoordinator.__init__` (src/sensor.py) strips one leading
`@`, takes `urlparse(url).path`, and applies `re.search(r'/a/([^/]+)',
path)`; no match raises `ValueError("Invalid share URL format")`.
`LibertyRiderConfigFlow.async_step_user` (config_flow.py) instead checks
`share_url.startswith(BASE_URL)` and applies the same regex to the whole
URL string.
-/

/-- `BASE_URL` from `const.py`. -/
def BASE_URL : String := "https://rider.live"

/-- One leading `@` is removed (`share_url.startswith('@')` followed by
`share_url[1:]` in `sensor.py`). -/
def stripAt : List Char → List Char
  | '@' :: rest => rest
  | cs => cs

/-- The suffix after the first `"://"`, if any (scheme/authority
separator scan of `urlparse`). -/
def afterSchemeSep : List Char → Option (List Char)
  | [] => none
  | c :: rest =>
    if c = ':' ∧ rest.take 2 = ['/', '/'] then some (rest.drop 2)
    else afterSchemeSep rest

/-- `urlparse(url).path`, modelled for the URL shapes this integration
handles: the fragment (from the first `#`) and query (from the first `?`)
are cut off; with a `scheme://netloc` head the path starts at the first
`/` after the authority, and a string without `://` is all path. -/
def urlPathL (cs : List Char) : List Char :=
  match afterSchemeSep ((cs.takeWhile (· ≠ '#')).takeWhile (· ≠ '?')) with
  | none => (cs.takeWhile (· ≠ '#')).takeWhile (· ≠ '?')
  | some rest => rest.dropWhile (· ≠ '/')

/-- `re.search(r'/a/([^/]+)', s)`: the leftmost position where `/a/` is
followed by at least one non-`/` character wins, and the captured group
is the maximal run of non-`/` characters after that `/a/`. -/
def findA : List Char → Option (List Char)
  | [] => none
  | c :: rest =>
    if c = '/' ∧ rest.take 2 = ['a', '/'] ∧ ((rest.drop 2).takeWhile (· ≠ '/')).length ≠ 0 then
      some ((rest.drop 2).takeWhile (· ≠ '/'))
    else findA rest

/-- The share-id extraction performed by `LibertyRiderCoordinator.__init__`:
strip one leading `@`, take the parsed URL's path, and search it for
`/a/<token>`. -/
def extractTokenL (cs : List Char) : Option (List Char) :=
  findA (urlPathL (stripAt cs))

/-- `LibertyRiderCoordinator.__init__` as a fallible construction step:
`ok share_id`, or the `ValueError("Invalid share URL format")` it
raises. -/
def extractShareId (rawUrl : String) : Except String String :=
  match extractTokenL rawUrl.data with
  | some t => .ok (String.mk t)
  | none => .error "Invalid share URL format"

/-- Outcome of the URL checks in
`LibertyRiderConfigFlow.async_step_user`: an `errors["base"]` key or a
created entry. -/
inductive ConfigFlowOutcome where
  | errorBase (key : String) : ConfigFlowOutcome
  | createEntry (shareUrl : String) : ConfigFlowOutcome
deriving DecidableEq, Repr

/-- Python `s.startswith(pre)`. -/
def pyStartsWith (s pre : String) : Bool :=
  startsList pre.data s.data

/-- The URL validation of `async_step_user` (config_flow.py): a URL not
starting with `BASE_URL` yields `errors["base"] = "invalid_url"`; one
where `re.search(r'/a/([^/]+)', share_url)` (over the whole URL string)
finds nothing yields `"invalid_url_format"`; otherwise the entry is
created. -/
def asyncStepUserCheck (shareUrl : String) : ConfigFlowOutcome :=
  if ¬ pyStartsWith shareUrl BASE_URL then .errorBase "invalid_url"
  else
    match findA shareUrl.data with
    | none => .errorBase "invalid_url_format"
    | some _ => .createEntry shareUrl

/-!
## Coordinator poll (`LibertyRiderCoordinator._async_update_data`)

One fetch attempt is abstracted by what the network delivered: either an
exception before/while obtaining the response (connection error, the
10-second timeout, ...) or a response with an HTTP status, a diagnostic
body text, and the result of `response.json()`.
-/

/-- What one poll's network interaction produced. -/
inductive FetchResult where
  | exc (msg : String) : FetchResult
  | resp (status : ℕ) (errorText : String) (body : Except String JVal) : FetchResult

/-- The classified failure of a poll. Each constructor corresponds to one
`raise UpdateFailed` site of `_async_update_data`: `transport` to the
`response.status != 200` branch, `protocol` to the `"errors" in data`
branch, `emptyResult` to the missing-`data.ride` branch, and `exception`
to the catch-all `except Exception` wrapper. -/
inductive FailureKind where
  | transport (status : ℕ) : FailureKind
  | protocol : FailureKind
  | emptyResult : FailureKind
  | exception : FailureKind
deriving DecidableEq, Repr

/-- Result of `_async_update_data`: the extracted `data["data"]["ride"]`
value, or `UpdateFailed` with its classification. -/
inductive UpdateOutcome where
  | ok (ride : JVal) : UpdateOutcome
  | failed (kind : FailureKind) : UpdateOutcome

/-- `_async_update_data` (src/sensor.py).  Mirrors the source order:
non-200 status fails first; a JSON parse error is swallowed by the outer
`except Exception`; a top-level `errors` field fails (the f-string reads
`data['errors']`, so an unsubscriptable body falls to the catch-all);
a falsy `data.get("data", {}).get("ride")` fails; otherwise
`data["data"]["ride"]` is returned. -/
def asyncUpdateData (fetch : FetchResult) : UpdateOutcome :=
  match fetch with
  | .exc _ => .failed .exception
  | .resp status _ body =>
    if status ≠ 200 then .failed (.transport status)
    else
      match body with
      | .error _ => .failed .exception
      | .ok data =>
        match pyInOp (.str "errors") data with
        | .error _ => .failed .exception
        | .ok true =>
          match pySubStr data "errors" with
          | .ok _ => .failed .protocol
          | .error _ => .failed .exception
        | .ok false =>
          match (pyGetD data "data" (.obj [])).bind (fun d => pyGet d "ride") with
          | .error _ => .failed .exception
          | .ok ride =>
            if truthy ride then
              match (pySubStr data "data").bind (fun d => pySubStr d "ride") with
              | .ok r => .ok r
              | .error _ => .failed .exception
            else .failed .emptyResult

/-- The coordinator's reader-visible state: the cached snapshot
(`coordinator.data`, `JVal.null` before any success) and
`last_update_success`. -/
structure CoordState where
  data : JVal
  lastUpdateSuccess : Bool

/-- Modelled from the spec: how the host `DataUpdateCoordinator`
(imported by `sensor.py` from `homeassistant.helpers.update_coordinator`;
not part of this repository's sources) applies one poll outcome — a
successful `_async_update_data` replaces the snapshot wholesale and marks
availability true, a raised `UpdateFailed` keeps the previous snapshot
and flips availability false (spec sections 3 `PollOutcome` and 7). -/
def applyRefresh (st : CoordState) (outcome : UpdateOutcome) : CoordState :=
  match outcome with
  | .ok ride => { data := ride, lastUpdateSuccess := true }
  | .failed _ => { data := st.data, lastUpdateSuccess := false }

/-- The `data.ride` value a response body actually carries, if any:
present only when the body is a dict whose `data` member is a dict with a
`ride` member. -/
def lookupRide (d : JVal) : Option JVal :=
  match d with
  | .obj fs =>
    match lookupJ fs "data" with
    | some (.obj fs₂) => lookupJ fs₂ "ride"
    | _ => none
  | _ => none

/-- The failure conditions enumerated by the spec for one poll attempt:
a fetch-level exception, a non-2xx HTTP status, a malformed JSON body, a
top-level `errors` field, or a missing (absent or `None`) `data.ride`. -/
def failureCondition : FetchResult → Prop
  | .exc _ => True
  | .resp status _ body =>
    ¬ (200 ≤ status ∧ status < 300)
    ∨ (∃ e, body = .error e)
    ∨ (∃ fs, body = .ok (.obj fs) ∧ (lookupJ fs "errors").isSome)
    ∨ (∃ d, body = .ok d ∧ (lookupRide d = none ∨ lookupRide d = some .null))

/-!
## Readers (`LibertyRiderSensor.state`, `LibertyRiderGPSTracker`)

Each reader is embedded as an inner `Except PyErr` computation that
mirrors the Python `try:` body literally, composed with the same `except`
clause as the source.
-/

/-- A value a sensor's `state` property may return: the translation-key
string, a float, an int, or the parsed timestamp of `start_time`. -/
inductive SVal where
  | s (v : String) : SVal
  | q (v : ℚ) : SVal
  | z (v : ℤ) : SVal
  | ts (v : String) : SVal

/-- The `try:` body of `LibertyRiderSensor.state`, keyed by
`entity_description.key` exactly as the source's `if/elif` chain; an
unknown key falls off the end (Python implicitly returns `None`). -/
def stateInner (key : String) (data : JVal) : Except PyErr (Option SVal) :=
  if key = "status" then do
    let st ← pyGet data "state"
    match st with
    | .null => pure none
    | v => do
      let low ← pyLower v
      pure (some (.s ("entity.sensor.status.state." ++ low)))
  else if key = "battery" then do
    let b ← pyGet data "currentBatteryLevel"
    match b with
    | .null => pure none
    | v => do
      let q ← pyFloat v
      pure (some (.q q))
  else if key = "distance" then do
    let d ← pyGet data "distance"
    match d with
    | .null => pure none
    | v => do
      let q ← pyFloat v
      pure (some (.q (q / 1000)))
  else if key = "duration" then do
    let d ← pyGet data "duration"
    match d with
    | .null => pure none
    | v => do
      let q ← pyDivNum v 60
      pure (some (.z (pyInt q)))
  else if key = "pause_duration" then do
    let d ← pyGet data "pauseDuration"
    match d with
    | .null => pure none
    | v => do
      let q ← pyDivNum v 60
      pure (some (.z (pyInt q)))
  else if key = "start_time" then do
    let st ← pyGet data "startTime"
    match st with
    | .null => pure none
    | .str s => do
      let t ← pyFromIsoformat (s.replace "Z" "+00:00")
      pure (some (.ts t))
    | _ => .error .attributeError
  else pure none

/-- `LibertyRiderSensor.state`: `None` when `coordinator.data` is falsy,
otherwise the `try:` body with `except Exception` returning `None`.  The
`Except` layer records that no exception kind escapes the catch-all. -/
def sensorState (key : String) (data : JVal) : Except PyErr (Option SVal) :=
  if truthy data = false then .ok none
  else
    match stateInner key data with
    | .ok v => .ok v
    | .error _ => .ok none

/-- `native_unit_of_measurement` of each entry of `SENSOR_TYPES`
(src/sensor.py): battery is declared with the `PERCENTAGE` unit,
distance in kilometers, the two durations in minutes. -/
def sensorUnit (key : String) : Option String :=
  if key = "battery" then some "%"
  else if key = "distance" then some "km"
  else if key = "duration" then some "min"
  else if key = "pause_duration" then some "min"
  else none

/-- The `if state == "RIDE_ACTIVE":` block of the tracker's coordinate
properties: `some q` models an executed `return float(...)`, `none`
falling through to the code below the block. -/
def activeBranch (coordKey : String) (data : JVal) (state : JVal) : Except PyErr (Option ℚ) :=
  if pyEqStr state "RIDE_ACTIVE" then do
    let cl ← pyGet data "currentLocation"
    if truthy cl then do
      let v ← pyGet cl coordKey
      if truthy v then do
        let raw ← pySubStr cl coordKey
        let q ← pyFloat raw
        pure (some q)
      else pure none
    else pure none
  else pure none

/-- The `if state in ["RIDE_PAUSED", "RIDE_STOPPED"]:` block of the
tracker's coordinate properties. -/
def pausedBranch (coordKey : String) (data : JVal) (state : JVal) : Except PyErr (Option ℚ) :=
  if pyInStrList state ["RIDE_PAUSED", "RIDE_STOPPED"] then do
    let pauses ← pyGetD data "pauses" (.arr [])
    if truthy pauses then do
      let lastPause ← pySubLast pauses
      let location ← pyGetD lastPause "lastLocation" (.obj [])
      if truthy location then do
        let v ← pyGet location coordKey
        if truthy v then do
          let raw ← pySubStr location coordKey
          let q ← pyFloat raw
          pure (some q)
        else pure none
      else pure none
    else pure none
  else pure none

/-- The `try:` body shared by `LibertyRiderGPSTracker.latitude` and
`.longitude`, parametrized by the coordinate key: the active-ride block,
whose `return` short-circuits the paused/stopped block below it. -/
def coordInner (coordKey : String) (data : JVal) : Except PyErr (Option ℚ) := do
  let state ← pyGet data "state"
  let fromActive ← activeBranch coordKey data state
  match fromActive with
  | some q => pure (some q)
  | none => pausedBranch coordKey data state

/-- The exception classes named by the `except` clause of the tracker's
coordinate properties: `(KeyError, TypeError, AttributeError,
ValueError)` — notably not `IndexError`. -/
def coordCaught : List PyErr :=
  [.keyError, .typeError, .attributeError, .valueError]

/-- The exception classes the tracker-coordinate `try:` body can
actually raise: the four caught ones plus `OverflowError` from
`float()` on an out-of-range integer — which the `except` clause does
not name. -/
def coordRaisable : List PyErr :=
  [.keyError, .typeError, .attributeError, .valueError, .overflowError]

/-- `LibertyRiderGPSTracker.latitude`: `None` on falsy data, otherwise
the `try:` body; only the four listed exception classes are converted to
`None`, anything else would propagate. -/
def trackerLatitude (data : JVal) : Except PyErr (Option ℚ) :=
  if truthy data = false then .ok none
  else
    match coordInner "latitude" data with
    | .ok v => .ok v
    | .error e => if e ∈ coordCaught then .ok none else .error e

/-- `LibertyRiderGPSTracker.longitude`, same shape as `latitude` with the
`longitude` key. -/
def trackerLongitude (data : JVal) : Except PyErr (Option ℚ) :=
  if truthy data = false then .ok none
  else
    match coordInner "longitude" data with
    | .ok v => .ok v
    | .error e => if e ∈ coordCaught then .ok none else .error e

/-- The `if data.get("state"):` block of `extra_state_attributes`: the
`ride_status` entry it contributes (empty when the guard is falsy). -/
def attrStateSection (data : JVal) : Except PyErr (List (String × JVal)) := do
  let st ← pyGet data "state"
  if truthy st then do
    let low ← pyLower (← pySubStr data "state")
    pure [("ride_status", JVal.str ("entity.sensor.status.state." ++ low))]
  else pure []

/-- The `if data.get("distance"):` block: `round(data["distance"] / 1000, 2)`. -/
def attrDistanceSection (data : JVal) : Except PyErr (List (String × JVal)) := do
  let dist ← pyGet data "distance"
  if truthy dist then do
    let v ← pyRoundJ ((pySubStr data "distance").bind (fun d => (pyDivNum d 1000).map .num)) 2
    pure [("distance_km", v)]
  else pure []

/-- The `if data.get("duration"):` block: `round(data["duration"] / 60, 1)`. -/
def attrDurationSection (data : JVal) : Except PyErr (List (String × JVal)) := do
  let dur ← pyGet data "duration"
  if truthy dur then do
    let v ← pyRoundJ ((pySubStr data "duration").bind (fun d => (pyDivNum d 60).map .num)) 1
    pure [("duration_minutes", v)]
  else pure []

/-- The `if data.get("currentBatteryLevel"):` block:
`round(data["currentBatteryLevel"] * 100, 1)`. -/
def attrBatterySection (data : JVal) : Except PyErr (List (String × JVal)) := do
  let bat ← pyGet data "currentBatteryLevel"
  if truthy bat then do
    let v ← pyRoundJ ((pySubStr data "currentBatteryLevel").bind (fun b => pyMulNat b 100)) 1
    pure [("battery_level", v)]
  else pure []

/-- The `try:` body of `LibertyRiderGPSTracker.extra_state_attributes`:
the four truthiness-guarded entries appended in source order. -/
def extraAttrsInner (data : JVal) : Except PyErr (List (String × JVal)) := do
  let part₁ ← attrStateSection data
  let part₂ ← attrDistanceSection data
  let part₃ ← attrDurationSection data
  let part₄ ← attrBatterySection data
  pure (part₁ ++ part₂ ++ part₃ ++ part₄)

/-- `LibertyRiderGPSTracker.extra_state_attributes`: `{}` on falsy data,
otherwise the `try:` body with `except Exception` returning `{}`. -/
def extraStateAttributes (data : JVal) : Except PyErr (List (String × JVal)) :=
  if truthy data = false then .ok []
  else
    match extraAttrsInner data with
    | .ok v => .ok v
    | .error _ => .ok []

/-!
## Refresh de-duplication

The de-duplication of eager refresh requests lives in the host
`DataUpdateCoordinator` / `Debouncer` machinery that `sensor.py` imports
(`async_request_refresh`, called by both entities' `async_update`); it is
not part of this repository's sources, so it is modelled from the spec.
-/

/-- Modelled from the spec (section 5): the poll-loop state of one
coordinator — whether a poll is currently in flight and how many outbound
network calls have been issued. -/
structure PollLoopState where
  inFlight : Bool
  networkCalls : ℕ
deriving DecidableEq, Repr

/-- Modelled from the spec (section 5): `coordinator.async_request_refresh`
— a refresh request while a poll is in flight joins the in-flight
operation (no new network call); otherwise it starts one poll, issuing
one outbound network call. -/
def requestRefresh (s : PollLoopState) : PollLoopState :=
  if s.inFlight then s
  else { inFlight := true, networkCalls := s.networkCalls + 1 }

/-- Modelled from the spec: completion of the in-flight poll. -/
def finishPoll (s : PollLoopState) : PollLoopState :=
  { s with inFlight := false }

/-!
## Helper lemmas
-/

@[simp] theorem exceptBindOk {α β ε : Type} (a : α) (f : α → Except ε β) :
    (Except.ok a >>= f : Except ε β) = f a := rfl

@[simp] theorem exceptBindErr {α β ε : Type} (e : ε) (f : α → Except ε β) :
    (Except.error e >>= f : Except ε β) = Except.error e := rfl

@[simp] theorem exceptMapOk {α β ε : Type} (a : α) (f : α → β) :
    (f <$> (Except.ok a : Except ε α)) = Except.ok (f a) := rfl

@[simp] theorem exceptMapErr {α β ε : Type} (e : ε) (f : α → β) :
    (f <$> (Except.error e : Except ε α)) = (Except.error e : Except ε β) := rfl

@[simp] theorem exceptPureEq {α ε : Type} (a : α) :
    (pure a : Except ε α) = Except.ok a := rfl

@[simp] theorem exceptDotBindOk {α β ε : Type} (a : α) (f : α → Except ε β) :
    (Except.ok a : Except ε α).bind f = f a := rfl

@[simp] theorem exceptDotBindErr {α β ε : Type} (e : ε) (f : α → Except ε β) :
    (Except.error e : Except ε α).bind f = Except.error e := rfl

@[simp] theorem exceptDotMapOk {α β ε : Type} (a : α) (f : α → β) :
    (Except.ok a : Except ε α).map f = (Except.ok (f a) : Except ε β) := rfl

@[simp] theorem exceptDotMapErr {α β ε : Type} (e : ε) (f : α → β) :
    (Except.error e : Except ε α).map f = (Except.error e : Except ε β) := rfl

/-- The computation either succeeded or raised an exception class among
`caught` (the classes named in an `except (...)` clause). -/
def okOrCaught {α : Type} (caught : List PyErr) : Except PyErr α → Prop
  | .ok _ => True
  | .error e => e ∈ caught

theorem okOrCaught_bind {α β : Type} {c : List PyErr} {x : Except PyErr α}
    {f : α → Except PyErr β} (hx : okOrCaught c x) (hf : ∀ a, okOrCaught c (f a)) :
    okOrCaught c (x >>= f) := by
  cases x with
  | ok a => simpa using hf a
  | error e => simpa [okOrCaught] using hx

theorem okOrCaught_pure {α : Type} {c : List PyErr} (a : α) :
    okOrCaught c (pure a : Except PyErr α) := by
  simp [okOrCaught]

theorem pyGet_okOrCaught (v : JVal) (k : String) : okOrCaught coordRaisable (pyGet v k) := by
  cases v <;> simp [pyGet, okOrCaught, coordRaisable]

theorem pyGetD_okOrCaught (v : JVal) (k : String) (d : JVal) :
    okOrCaught coordRaisable (pyGetD v k d) := by
  cases v <;> simp [pyGetD, okOrCaught, coordRaisable]

theorem pySubStr_okOrCaught (v : JVal) (k : String) :
    okOrCaught coordRaisable (pySubStr v k) := by
  cases v <;> simp [pySubStr, okOrCaught, coordRaisable]
  case obj fs => cases lookupJ fs k <;> simp [okOrCaught, coordRaisable]

theorem pyFloat_okOrCaught (v : JVal) : okOrCaught coordRaisable (pyFloat v) := by
  cases v <;> simp [pyFloat, okOrCaught, coordRaisable]
  case int z =>
    by_cases hcond : (2 : ℤ) ^ 1024 ≤ z ∨ z ≤ -(2 ^ 1024)
    · simp [okOrCaught, coordRaisable, hcond]
    · simp [okOrCaught, hcond]
  case str s => cases parseSimpleFloat s <;> simp [okOrCaught, coordRaisable]

/-- `pauses[-1]` cannot raise `IndexError` under the `if pauses:` guard:
on a truthy value, `v[-1]` only raises classes in the raisable set. -/
theorem pySubLast_okOrCaught (v : JVal) (h : truthy v = true) :
    okOrCaught coordRaisable (pySubLast v) := by
  cases v with
  | arr xs =>
    cases hlast : xs.getLast? with
    | none =>
      rw [List.getLast?_eq_none_iff] at hlast
      simp [truthy, hlast] at h
    | some x => simp [pySubLast, hlast, okOrCaught]
  | str s =>
    cases hlast : s.data.getLast? with
    | none =>
      rw [List.getLast?_eq_none_iff] at hlast
      have : s = "" := by
        cases s with
        | mk cs => simpa [String.ext_iff] using hlast
      simp [truthy, this] at h
    | some c => simp [pySubLast, hlast, okOrCaught]
  | _ => simp_all [pySubLast, okOrCaught, coordRaisable, truthy]

/-- Every exception the active-ride block can raise is in
`coordRaisable`. -/
theorem activeBranch_okOrCaught (k : String) (data state : JVal) :
    okOrCaught coordRaisable (activeBranch k data state) := by
  unfold activeBranch
  split
  · refine okOrCaught_bind (pyGet_okOrCaught data "currentLocation") fun cl => ?_
    split
    · refine okOrCaught_bind (pyGet_okOrCaught cl k) fun v => ?_
      split
      · refine okOrCaught_bind (pySubStr_okOrCaught cl k) fun raw => ?_
        exact okOrCaught_bind (pyFloat_okOrCaught raw) fun q => okOrCaught_pure _
      · exact okOrCaught_pure _
    · exact okOrCaught_pure _
  · exact okOrCaught_pure _

theorem pausedBranch_okOrCaught (k : String) (data state : JVal) :
    okOrCaught coordRaisable (pausedBranch k data state) := by
  unfold pausedBranch
  split
  · refine okOrCaught_bind (pyGetD_okOrCaught data "pauses" (.arr [])) fun pauses => ?_
    split
    · next hp =>
      refine okOrCaught_bind (pySubLast_okOrCaught pauses hp) fun lastPause => ?_
      refine okOrCaught_bind (pyGetD_okOrCaught lastPause "lastLocation" (.obj [])) fun location => ?_
      split
      · refine okOrCaught_bind (pyGet_okOrCaught location k) fun v => ?_
        split
        · refine okOrCaught_bind (pySubStr_okOrCaught location k) fun raw => ?_
          exact okOrCaught_bind (pyFloat_okOrCaught raw) fun q => okOrCaught_pure _
        · exact okOrCaught_pure _
      · exact okOrCaught_pure _
    · exact okOrCaught_pure _
  · exact okOrCaught_pure _

/-- Every exception the tracker-coordinate `try:` body can raise is in
`coordRaisable`: the four classes of the `except` clause, plus
`OverflowError`. -/
theorem coordInner_okOrCaught (k : String) (data : JVal) :
    okOrCaught coordRaisable (coordInner k data) := by
  unfold coordInner
  refine okOrCaught_bind (pyGet_okOrCaught data "state") fun state => ?_
  refine okOrCaught_bind (activeBranch_okOrCaught k data state) fun fromActive => ?_
  cases fromActive with
  | some q => exact okOrCaught_pure _
  | none => exact pausedBranch_okOrCaught k data state

/-- All modelled exception classes, as caught by `except Exception`. -/
def allPyErr : List PyErr :=
  [.keyError, .typeError, .attributeError, .valueError, .indexError, .overflowError]

theorem okOrCaught_all {α : Type} (x : Except PyErr α) : okOrCaught allPyErr x := by
  cases x with
  | ok a => trivial
  | error e => cases e <;> simp [okOrCaught, allPyErr]

/-- C10 counterexample: on a `RIDE_ACTIVE` snapshot whose latitude is
the JSON integer `2 ^ 1024`, `float(current_location["latitude"])`
raises `OverflowError` — not in the `except (KeyError, TypeError,
AttributeError, ValueError)` tuple — so the tracker's `latitude`
property propagates an exception across the read-snapshot interface. -/
theorem c10_counterexample :
    trackerLatitude (.obj [("state", .str "RIDE_ACTIVE"),
      ("currentLocation", .obj [("latitude", .int (2 ^ 1024))])])
      = .error .overflowError := by
  have hz : ((2 : ℤ) ^ 1024) ≠ 0 := by positivity
  unfold trackerLatitude coordInner activeBranch
  simp [pyGet, lookupJ, truthy, pyEqStr, pySubStr, pyFloat, coordCaught, hz]

/-- C10 (amended): each sensor's `state` property and the tracker's
`extra_state_attributes` (both guarded by `except Exception`) return a
value on every coordinator data value; the tracker's `latitude` and
`longitude` catch only `(KeyError, TypeError, AttributeError,
ValueError)` and therefore either return a value or propagate precisely
an `OverflowError` (raised by `float()` on an integer coordinate beyond
the double range) — no other exception can cross the read-snapshot
interface. -/
theorem c10_reader_exception_containment (key : String) (data : JVal) :
    (∃ v, sensorState key data = .ok v) ∧
    (∃ v, extraStateAttributes data = .ok v) ∧
    ((∃ v, trackerLatitude data = .ok v) ∨ trackerLatitude data = .error .overflowError) ∧
    ((∃ v, trackerLongitude data = .ok v) ∨
      trackerLongitude data = .error .overflowError) := by
  refine ⟨?_, ?_, ?_, ?_⟩
  · unfold sensorState
    split
    · exact ⟨none, rfl⟩
    · cases stateInner key data <;> simp
  · unfold extraStateAttributes
    split
    · exact ⟨[], rfl⟩
    · cases extraAttrsInner data <;> simp
  · unfold trackerLatitude
    split
    · exact Or.inl ⟨none, rfl⟩
    · have h := coordInner_okOrCaught "latitude" data
      cases hc : coordInner "latitude" data with
      | ok v => exact Or.inl (by simp [hc])
      | error e =>
        rw [hc] at h
        simp only [okOrCaught] at h
        by_cases hin : e ∈ coordCaught
        · exact Or.inl (by simp [hc, hin])
        · have he : e = .overflowError := by
            cases e <;> simp_all [coordRaisable, coordCaught]
          exact Or.inr (by simp [hc, hin, he, coordCaught])
  · unfold trackerLongitude
    split
    · exact Or.inl ⟨none, rfl⟩
    · have h := coordInner_okOrCaught "longitude" data
      cases hc : coordInner "longitude" data with
      | ok v => exact Or.inl (by simp [hc])
      | error e =>
        rw [hc] at h
        simp only [okOrCaught] at h
        by_cases hin : e ∈ coordCaught
        · exact Or.inl (by simp [hc, hin])
        · have he : e = .overflowError := by
            cases e <;> simp_all [coordRaisable, coordCaught]
          exact Or.inr (by simp [hc, hin, he, coordCaught])

/-- C9: starting a poll from idle issues exactly one outbound network
call, and any two further refresh requests issued while that poll is in
flight leave the state — in particular the network-call count —
unchanged: concurrent refresh requests collapse into the single
in-flight operation. -/
theorem c9_refresh_single_flight (n : ℕ) :
    (requestRefresh { inFlight := false, networkCalls := n }).inFlight = true ∧
    (requestRefresh { inFlight := false, networkCalls := n }).networkCalls = n + 1 ∧
    requestRefresh (requestRefresh (requestRefresh { inFlight := false, networkCalls := n }))
      = requestRefresh { inFlight := false, networkCalls := n } := by
  simp [requestRefresh]

/-- C7: on a snapshot whose `distance` field is the number `d` (meters),
the distance sensor's state is `d / 1000` kilometers. -/
theorem c7_distance_sensor_km (fs : List (String × JVal)) (d : ℚ)
    (hd : lookupJ fs "distance" = some (.num d)) :
    sensorState "distance" (.obj fs) = .ok (some (.q (d / 1000))) := by
  have hne : fs ≠ [] := by
    intro h
    rw [h] at hd
    simp [lookupJ] at hd
  simp [sensorState, stateInner, pyGet, hd, truthy, pyFloat, hne]

/-- C7 witness: `distance = 12345` meters yields `12.345` km. -/
theorem c7_distance_sensor_km_witness :
    sensorState "distance" (.obj [("distance", .num 12345)]) = .ok (some (.q (2469 / 200))) := by
  have h := c7_distance_sensor_km [("distance", .num 12345)] 12345 (by simp [lookupJ])
  have hq : (12345 : ℚ) / 1000 = 2469 / 200 := by norm_num
  rw [h, hq]

/-- C8: on a snapshot with numeric non-negative `duration` and
`pauseDuration` fields (seconds), the duration and pause-duration
sensors' states are the floors of seconds / 60 (whole minutes). -/
theorem c8_duration_floor_minutes (fs : List (String × JVal)) (s p : ℚ)
    (hs : lookupJ fs "duration" = some (.num s))
    (hp : lookupJ fs "pauseDuration" = some (.num p))
    (hs0 : 0 ≤ s) (hp0 : 0 ≤ p) :
    sensorState "duration" (.obj fs) = .ok (some (.z ⌊s / 60⌋)) ∧
    sensorState "pause_duration" (.obj fs) = .ok (some (.z ⌊p / 60⌋)) := by
  have hne : fs ≠ [] := by
    intro h
    rw [h] at hs
    simp [lookupJ] at hs
  have hs60 : 0 ≤ s / 60 := by positivity
  have hp60 : 0 ≤ p / 60 := by positivity
  constructor
  · simp [sensorState, stateInner, pyGet, hs, truthy, pyDivNum, pyInt, hne, hs60]
  · simp [sensorState, stateInner, pyGet, hp, truthy, pyDivNum, pyInt, hne, hp60]

/-- C8 witness: `duration = 125` (and `pauseDuration = 125`) seconds
yield `2` whole minutes — floor, not round. -/
theorem c8_duration_floor_minutes_witness :
    sensorState "duration" (.obj [("duration", .num 125), ("pauseDuration", .num 125)])
      = .ok (some (.z 2)) ∧
    sensorState "pause_duration" (.obj [("duration", .num 125), ("pauseDuration", .num 125)])
      = .ok (some (.z 2)) := by
  have h := c8_duration_floor_minutes [("duration", .num 125), ("pauseDuration", .num 125)]
    125 125 (by simp [lookupJ]) (by simp [lookupJ]) (by norm_num) (by norm_num)
  have hfl : ⌊(125 : ℚ) / 60⌋ = 2 := by
    rw [Int.floor_eq_iff]; norm_num
  rw [hfl] at h
  exact h

theorem lookupJ_ne_nil {fs : List (String × JVal)} {k : String} {v : JVal}
    (h : lookupJ fs k = some v) : fs ≠ [] := by
  intro hnil
  rw [hnil] at h
  simp [lookupJ] at h

theorem trackerLatitude_eq_inner {fs : List (String × JVal)} {v : Option ℚ}
    (hne : fs ≠ []) (h : coordInner "latitude" (.obj fs) = .ok v) :
    trackerLatitude (.obj fs) = .ok v := by
  unfold trackerLatitude
  simp [truthy, List.isEmpty_eq_true, hne, h]

theorem trackerLongitude_eq_inner {fs : List (String × JVal)} {v : Option ℚ}
    (hne : fs ≠ []) (h : coordInner "longitude" (.obj fs) = .ok v) :
    trackerLongitude (.obj fs) = .ok v := by
  unfold trackerLongitude
  simp [truthy, List.isEmpty_eq_true, hne, h]

/-- In state `RIDE_ACTIVE` with a present, truthy, numeric coordinate,
the coordinate property returns exactly that number. -/
theorem coordInner_active_num (k : String) (fs cfs : List (String × JVal)) (q : ℚ)
    (hs : lookupJ fs "state" = some (.str "RIDE_ACTIVE"))
    (hcl : lookupJ fs "currentLocation" = some (.obj cfs))
    (hk : lookupJ cfs k = some (.num q)) (hq : q ≠ 0) :
    coordInner k (.obj fs) = .ok (some q) := by
  have hcne : cfs ≠ [] := lookupJ_ne_nil hk
  unfold coordInner activeBranch
  simp [pyGet, hs, hcl, hk, pyEqStr, truthy, List.isEmpty_eq_true, hcne, pySubStr, pyFloat, hq]

/-- In state `RIDE_ACTIVE` with the coordinate absent, `None`, or the
falsy number `0`, the coordinate property returns `None`. -/
theorem coordInner_active_absent (k : String) (fs cfs : List (String × JVal))
    (hs : lookupJ fs "state" = some (.str "RIDE_ACTIVE"))
    (hcl : lookupJ fs "currentLocation" = some (.obj cfs))
    (hk : lookupJ cfs k = none ∨ lookupJ cfs k = some .null ∨ lookupJ cfs k = some (.num 0)) :
    coordInner k (.obj fs) = .ok none := by
  unfold coordInner activeBranch pausedBranch
  rcases hk with hk | hk | hk <;>
    simp [pyGet, hs, hcl, hk, pyEqStr, pyInStrList, truthy]

/-- In state `RIDE_PAUSED`/`RIDE_STOPPED`, the coordinate is read from
the last element of `pauses` — never an earlier one — when present,
truthy and numeric in that element's `lastLocation`. -/
theorem coordInner_paused_num (k : String) (fs lfs llfs : List (String × JVal))
    (ps : List JVal) (q : ℚ) (st : String)
    (hst : st = "RIDE_PAUSED" ∨ st = "RIDE_STOPPED")
    (hs : lookupJ fs "state" = some (.str st))
    (hp : lookupJ fs "pauses" = some (.arr (ps ++ [.obj lfs])))
    (hl : lookupJ lfs "lastLocation" = some (.obj llfs))
    (hk : lookupJ llfs k = some (.num q)) (hq : q ≠ 0) :
    coordInner k (.obj fs) = .ok (some q) := by
  have hlne : llfs ≠ [] := lookupJ_ne_nil hk
  unfold coordInner activeBranch pausedBranch
  rcases hst with hst | hst <;> subst hst <;>
    simp [pyGet, pyGetD, hs, hp, hl, hk, pyEqStr, pyInStrList, truthy,
      List.isEmpty_eq_true, hlne, pySubLast, List.getLast?_concat, pySubStr, pyFloat, hq]

/-- In state `RIDE_PAUSED`/`RIDE_STOPPED`, a coordinate absent, `None`
or `0` in the last pause's `lastLocation` yields `None`. -/
theorem coordInner_paused_absent (k : String) (fs lfs llfs : List (String × JVal))
    (ps : List JVal) (st : String)
    (hst : st = "RIDE_PAUSED" ∨ st = "RIDE_STOPPED")
    (hs : lookupJ fs "state" = some (.str st))
    (hp : lookupJ fs "pauses" = some (.arr (ps ++ [.obj lfs])))
    (hl : lookupJ lfs "lastLocation" = some (.obj llfs))
    (hk : lookupJ llfs k = none ∨ lookupJ llfs k = some .null ∨ lookupJ llfs k = some (.num 0)) :
    coordInner k (.obj fs) = .ok none := by
  unfold coordInner activeBranch pausedBranch
  rcases hst with hst | hst <;> subst hst <;> rcases hk with hk | hk | hk <;>
    simp [pyGet, pyGetD, hs, hp, hl, hk, pyEqStr, pyInStrList, truthy,
      List.isEmpty_eq_true, pySubLast, List.getLast?_concat]

/-- C2 counterexample: a `RIDE_ACTIVE` snapshot whose `currentLocation`
has a truthy latitude but no longitude.  The claim demands that when not
both coordinates are present and truthy, *neither* coordinate is
returned; the code returns the latitude and only the longitude is
`None`. -/
theorem c2_counterexample :
    trackerLatitude (.obj [("state", .str "RIDE_ACTIVE"),
        ("currentLocation", .obj [("latitude", .num (481 / 10))])])
      = .ok (some (481 / 10)) ∧
    trackerLongitude (.obj [("state", .str "RIDE_ACTIVE"),
        ("currentLocation", .obj [("latitude", .num (481 / 10))])])
      = .ok none := by
  constructor
  · exact trackerLatitude_eq_inner (by simp)
      (coordInner_active_num "latitude"
        [("state", .str "RIDE_ACTIVE"), ("currentLocation", .obj [("latitude", .num (481 / 10))])]
        [("latitude", .num (481 / 10))] (481 / 10)
        (by simp [lookupJ]) (by simp [lookupJ]) (by simp [lookupJ]) (by norm_num))
  · exact trackerLongitude_eq_inner (by simp)
      (coordInner_active_absent "longitude"
        [("state", .str "RIDE_ACTIVE"), ("currentLocation", .obj [("latitude", .num (481 / 10))])]
        [("latitude", .num (481 / 10))]
        (by simp [lookupJ]) (by simp [lookupJ]) (Or.inl (by simp [lookupJ])))

/-- C2 (amended): for a `RIDE_ACTIVE` snapshot the tracker reports each
coordinate of `currentLocation` independently — a coordinate is returned
iff it is present, numeric and truthy in `currentLocation`, and a
coordinate that is absent, `None`, or the falsy `0` is reported as
`None`, regardless of the other coordinate. -/
theorem c2_active_location_independent (fs cfs : List (String × JVal)) (la lo : ℚ)
    (hs : lookupJ fs "state" = some (.str "RIDE_ACTIVE"))
    (hcl : lookupJ fs "currentLocation" = some (.obj cfs)) :
    (lookupJ cfs "latitude" = some (.num la) → la ≠ 0 →
      trackerLatitude (.obj fs) = .ok (some la)) ∧
    ((lookupJ cfs "latitude" = none ∨ lookupJ cfs "latitude" = some .null ∨
        lookupJ cfs "latitude" = some (.num 0)) →
      trackerLatitude (.obj fs) = .ok none) ∧
    (lookupJ cfs "longitude" = some (.num lo) → lo ≠ 0 →
      trackerLongitude (.obj fs) = .ok (some lo)) ∧
    ((lookupJ cfs "longitude" = none ∨ lookupJ cfs "longitude" = some .null ∨
        lookupJ cfs "longitude" = some (.num 0)) →
      trackerLongitude (.obj fs) = .ok none) := by
  have hne : fs ≠ [] := lookupJ_ne_nil hs
  exact ⟨fun hk hq => trackerLatitude_eq_inner hne
      (coordInner_active_num "latitude" fs cfs la hs hcl hk hq),
    fun hk => trackerLatitude_eq_inner hne
      (coordInner_active_absent "latitude" fs cfs hs hcl hk),
    fun hk hq => trackerLongitude_eq_inner hne
      (coordInner_active_num "longitude" fs cfs lo hs hcl hk hq),
    fun hk => trackerLongitude_eq_inner hne
      (coordInner_active_absent "longitude" fs cfs hs hcl hk)⟩

/-- C2 witness: with `currentLocation = {latitude: 48.1, longitude: 2.3}`
and state `RIDE_ACTIVE`, the tracker reports exactly that pair. -/
theorem c2_active_location_independent_witness :
    trackerLatitude (.obj [("state", .str "RIDE_ACTIVE"),
        ("currentLocation", .obj [("latitude", .num (481 / 10)), ("longitude", .num (23 / 10))])])
      = .ok (some (481 / 10)) ∧
    trackerLongitude (.obj [("state", .str "RIDE_ACTIVE"),
        ("currentLocation", .obj [("latitude", .num (481 / 10)), ("longitude", .num (23 / 10))])])
      = .ok (some (23 / 10)) := by
  have h := c2_active_location_independent
    [("state", .str "RIDE_ACTIVE"),
      ("currentLocation", .obj [("latitude", .num (481 / 10)), ("longitude", .num (23 / 10))])]
    [("latitude", .num (481 / 10)), ("longitude", .num (23 / 10))]
    (481 / 10) (23 / 10) (by simp [lookupJ]) (by simp [lookupJ])
  exact ⟨h.1 (by simp [lookupJ]) (by norm_num),
    h.2.2.1 (by simp [lookupJ]) (by norm_num)⟩

/-- C3 counterexample: a `RIDE_STOPPED` snapshot whose single pause has a
`lastLocation` with only a latitude.  The claim demands no location
unless the last pause's `lastLocation` has both coordinates; the code
returns the latitude while the longitude alone is `None`. -/
theorem c3_counterexample :
    trackerLatitude (.obj [("state", .str "RIDE_STOPPED"),
        ("pauses", .arr [.obj [("lastLocation", .obj [("latitude", .num 5)])]])])
      = .ok (some 5) ∧
    trackerLongitude (.obj [("state", .str "RIDE_STOPPED"),
        ("pauses", .arr [.obj [("lastLocation", .obj [("latitude", .num 5)])]])])
      = .ok none := by
  constructor
  · exact trackerLatitude_eq_inner (by simp)
      (coordInner_paused_num "latitude"
        [("state", .str "RIDE_STOPPED"),
          ("pauses", .arr [.obj [("lastLocation", .obj [("latitude", .num 5)])]])]
        [("lastLocation", .obj [("latitude", .num 5)])]
        [("latitude", .num 5)] ([] : List JVal) 5 "RIDE_STOPPED" (Or.inr rfl)
        (by simp [lookupJ]) (by simp [lookupJ]) (by simp [lookupJ]) (by simp [lookupJ])
        (by norm_num))
  · exact trackerLongitude_eq_inner (by simp)
      (coordInner_paused_absent "longitude"
        [("state", .str "RIDE_STOPPED"),
          ("pauses", .arr [.obj [("lastLocation", .obj [("latitude", .num 5)])]])]
        [("lastLocation", .obj [("latitude", .num 5)])]
        [("latitude", .num 5)] ([] : List JVal) "RIDE_STOPPED" (Or.inr rfl)
        (by simp [lookupJ]) (by simp [lookupJ]) (by simp [lookupJ]) (Or.inl (by simp [lookupJ])))

/-- C3 (amended): for a `RIDE_PAUSED` or `RIDE_STOPPED` snapshot with a
non-empty `pauseHistory` (the `pauses` field), the tracker's location is
taken from the *last* element — never an earlier one — with each
coordinate of that element's `lastLocation` reported independently:
returned when present, numeric and truthy, `None` when absent, `None` or
the falsy `0`. -/
theorem c3_last_pause_location (fs lfs llfs : List (String × JVal))
    (ps : List JVal) (la lo : ℚ) (st : String)
    (hst : st = "RIDE_PAUSED" ∨ st = "RIDE_STOPPED")
    (hs : lookupJ fs "state" = some (.str st))
    (hp : lookupJ fs "pauses" = some (.arr (ps ++ [.obj lfs])))
    (hl : lookupJ lfs "lastLocation" = some (.obj llfs)) :
    (lookupJ llfs "latitude" = some (.num la) → la ≠ 0 →
      trackerLatitude (.obj fs) = .ok (some la)) ∧
    ((lookupJ llfs "latitude" = none ∨ lookupJ llfs "latitude" = some .null ∨
        lookupJ llfs "latitude" = some (.num 0)) →
      trackerLatitude (.obj fs) = .ok none) ∧
    (lookupJ llfs "longitude" = some (.num lo) → lo ≠ 0 →
      trackerLongitude (.obj fs) = .ok (some lo)) ∧
    ((lookupJ llfs "longitude" = none ∨ lookupJ llfs "longitude" = some .null ∨
        lookupJ llfs "longitude" = some (.num 0)) →
      trackerLongitude (.obj fs) = .ok none) := by
  have hne : fs ≠ [] := lookupJ_ne_nil hs
  exact ⟨fun hk hq => trackerLatitude_eq_inner hne
      (coordInner_paused_num "latitude" fs lfs llfs ps la st hst hs hp hl hk hq),
    fun hk => trackerLatitude_eq_inner hne
      (coordInner_paused_absent "latitude" fs lfs llfs ps st hst hs hp hl hk),
    fun hk hq => trackerLongitude_eq_inner hne
      (coordInner_paused_num "longitude" fs lfs llfs ps lo st hst hs hp hl hk hq),
    fun hk => trackerLongitude_eq_inner hne
      (coordInner_paused_absent "longitude" fs lfs llfs ps st hst hs hp hl hk)⟩

/-- C3 witness: state `RIDE_STOPPED` with
`pauses = [{lastLocation:{lat:1,lon:1}}, {lastLocation:{lat:2,lon:2}}]`
yields location `(2, 2)` — the last entry, never the first. -/
theorem c3_last_pause_location_witness :
    trackerLatitude (.obj [("state", .str "RIDE_STOPPED"),
        ("pauses", .arr [.obj [("lastLocation", .obj [("latitude", .num 1), ("longitude", .num 1)])],
          .obj [("lastLocation", .obj [("latitude", .num 2), ("longitude", .num 2)])]])])
      = .ok (some 2) ∧
    trackerLongitude (.obj [("state", .str "RIDE_STOPPED"),
        ("pauses", .arr [.obj [("lastLocation", .obj [("latitude", .num 1), ("longitude", .num 1)])],
          .obj [("lastLocation", .obj [("latitude", .num 2), ("longitude", .num 2)])]])])
      = .ok (some 2) := by
  have h := c3_last_pause_location
    [("state", .str "RIDE_STOPPED"),
      ("pauses", .arr [.obj [("lastLocation", .obj [("latitude", .num 1), ("longitude", .num 1)])],
        .obj [("lastLocation", .obj [("latitude", .num 2), ("longitude", .num 2)])]])]
    [("lastLocation", .obj [("latitude", .num 2), ("longitude", .num 2)])]
    [("latitude", .num 2), ("longitude", .num 2)]
    [.obj [("lastLocation", .obj [("latitude", .num 1), ("longitude", .num 1)])]]
    2 2 "RIDE_STOPPED" (Or.inr rfl) (by simp [lookupJ]) (by simp [lookupJ]) (by simp [lookupJ])
  exact ⟨h.1 (by simp [lookupJ]) (by norm_num),
    h.2.2.1 (by simp [lookupJ]) (by norm_num)⟩

theorem lookupJ_append_of_none {xs : List (String × JVal)} (ys : List (String × JVal))
    {k : String} (h : lookupJ xs k = none) : lookupJ (xs ++ ys) k = lookupJ ys k := by
  induction xs with
  | nil => simp
  | cons p rest ih =>
    obtain ⟨a, v⟩ := p
    by_cases hak : a = k
    · simp [lookupJ, hak] at h
    · simp only [lookupJ, List.cons_append, if_neg hak] at h ⊢
      exact ih h

theorem attrStateSection_no_battery (fs : List (String × JVal))
    (h : lookupJ fs "state" = none ∨ ∃ s, lookupJ fs "state" = some (.str s)) :
    ∃ p, attrStateSection (.obj fs) = .ok p ∧ lookupJ p "battery_level" = none := by
  unfold attrStateSection
  rcases h with h | ⟨s, h⟩
  · exact ⟨[], by simp [pyGet, h, truthy], rfl⟩
  · by_cases hs : s = ""
    · subst hs
      exact ⟨[], by simp [pyGet, h, truthy], rfl⟩
    · refine ⟨[("ride_status", .str ("entity.sensor.status.state." ++ s.map Char.toLower))],
        ?_, by simp [lookupJ]⟩
      simp [pyGet, pySubStr, h, truthy, hs, pyLower]

theorem attrDistanceSection_no_battery (fs : List (String × JVal))
    (h : lookupJ fs "distance" = none ∨ ∃ d : ℚ, lookupJ fs "distance" = some (.num d)) :
    ∃ p, attrDistanceSection (.obj fs) = .ok p ∧ lookupJ p "battery_level" = none := by
  unfold attrDistanceSection
  rcases h with h | ⟨d, h⟩
  · exact ⟨[], by simp [pyGet, h, truthy], rfl⟩
  · by_cases hd : d = 0
    · subst hd
      exact ⟨[], by simp [pyGet, h, truthy], rfl⟩
    · refine ⟨[("distance_km", .num (pyRound (d / 1000) 2))], ?_, by simp [lookupJ]⟩
      simp [pyGet, pySubStr, h, truthy, hd, pyDivNum, pyRoundJ]

theorem attrDurationSection_no_battery (fs : List (String × JVal))
    (h : lookupJ fs "duration" = none ∨ ∃ u : ℚ, lookupJ fs "duration" = some (.num u)) :
    ∃ p, attrDurationSection (.obj fs) = .ok p ∧ lookupJ p "battery_level" = none := by
  unfold attrDurationSection
  rcases h with h | ⟨u, h⟩
  · exact ⟨[], by simp [pyGet, h, truthy], rfl⟩
  · by_cases hu : u = 0
    · subst hu
      exact ⟨[], by simp [pyGet, h, truthy], rfl⟩
    · refine ⟨[("duration_minutes", .num (pyRound (u / 60) 1))], ?_, by simp [lookupJ]⟩
      simp [pyGet, pySubStr, h, truthy, hu, pyDivNum, pyRoundJ]

set_option maxRecDepth 2000 in
theorem attrBatterySection_val (fs : List (String × JVal)) (b : ℚ)
    (hb : lookupJ fs "currentBatteryLevel" = some (.num b)) :
    attrBatterySection (.obj fs)
      = .ok (if b = 0 then [] else [("battery_level", .num (pyRound (b * 100) 1))]) := by
  unfold attrBatterySection
  by_cases h0 : b = 0
  · subst h0
    simp [pyGet, hb, truthy]
  · simp [pyGet, pySubStr, hb, truthy, h0, pyMulNat, pyRoundJ]

/-- Evaluation rule for `pyRound` when the scaled value is an exact
integer. -/
theorem pyRound_eq_of_intCast (q : ℚ) (n : ℕ) (z : ℤ) (h : q * 10 ^ n = (z : ℚ)) :
    pyRound q n = (z : ℚ) / 10 ^ n := by
  unfold pyRound roundHalfEven
  rw [h, Int.floor_intCast]
  norm_num

/-- C6 counterexample: `currentBatteryLevel = 0` is a fraction in
`[0, 1]`; the battery sensor's state is `0.0`, but the tracker's
attribute dict omits `battery_level` entirely (truthiness guard), where
the claim demands the attribute value `round(0 * 100, 1) = 0.0`. -/
theorem c6_counterexample :
    sensorState "battery" (.obj [("currentBatteryLevel", .num 0)]) = .ok (some (.q 0)) ∧
    extraStateAttributes (.obj [("currentBatteryLevel", .num 0)]) = .ok [] := by
  constructor
  · simp [sensorState, stateInner, pyGet, lookupJ, truthy, pyFloat]
  · simp [extraStateAttributes, extraAttrsInner, attrStateSection, attrDistanceSection,
      attrDurationSection, attrBatterySection, pyGet, lookupJ, truthy]

/-- C6 (amended): for a snapshot whose `currentBatteryLevel` is the
fraction `b ∈ [0,1]` (with the other attribute source fields absent or
well-typed), the battery sensor's state is `b` unchanged under the
percentage unit, while the tracker's `battery_level` extra attribute is
`round(b * 100, 1)` when `b` is truthy and is omitted entirely when
`b = 0`. -/
theorem c6_battery_unit_paths (fs : List (String × JVal)) (b : ℚ)
    (hb : lookupJ fs "currentBatteryLevel" = some (.num b))
    (_hb01 : 0 ≤ b ∧ b ≤ 1)
    (hst : lookupJ fs "state" = none ∨ ∃ s, lookupJ fs "state" = some (.str s))
    (hd : lookupJ fs "distance" = none ∨ ∃ d : ℚ, lookupJ fs "distance" = some (.num d))
    (hu : lookupJ fs "duration" = none ∨ ∃ u : ℚ, lookupJ fs "duration" = some (.num u)) :
    sensorState "battery" (.obj fs) = .ok (some (.q b)) ∧
    sensorUnit "battery" = some "%" ∧
    (∃ attrs, extraStateAttributes (.obj fs) = .ok attrs ∧
      lookupJ attrs "battery_level"
        = (if b = 0 then none else some (.num (pyRound (b * 100) 1)))) := by
  have hne : fs ≠ [] := lookupJ_ne_nil hb
  obtain ⟨p₁, hp₁, hq₁⟩ := attrStateSection_no_battery fs hst
  obtain ⟨p₂, hp₂, hq₂⟩ := attrDistanceSection_no_battery fs hd
  obtain ⟨p₃, hp₃, hq₃⟩ := attrDurationSection_no_battery fs hu
  have hp₄ := attrBatterySection_val fs b hb
  refine ⟨?_, rfl, ?_⟩
  · simp [sensorState, stateInner, pyGet, hb, truthy, hne, pyFloat]
  · refine ⟨p₁ ++ p₂ ++ p₃ ++ (if b = 0 then []
      else [("battery_level", .num (pyRound (b * 100) 1))]), ?_, ?_⟩
    · unfold extraStateAttributes extraAttrsInner
      simp [truthy, List.isEmpty_eq_true, hne, hp₁, hp₂, hp₃, hp₄]
    · rw [List.append_assoc, List.append_assoc, lookupJ_append_of_none _ hq₁,
        lookupJ_append_of_none _ hq₂, lookupJ_append_of_none _ hq₃]
      by_cases h0 : b = 0
      · simp [h0, lookupJ]
      · simp [h0, lookupJ]

/-- C6 witness: `currentBatteryLevel = 0.755` gives battery sensor state
`0.755` (percentage unit) while the tracker attribute is
`round(75.5, 1) = 75.5`. -/
theorem c6_battery_unit_paths_witness :
    sensorState "battery" (.obj [("currentBatteryLevel", .num (755 / 1000))])
      = .ok (some (.q (755 / 1000))) ∧
    sensorUnit "battery" = some "%" ∧
    (∃ attrs, extraStateAttributes (.obj [("currentBatteryLevel", .num (755 / 1000))])
      = .ok attrs ∧ lookupJ attrs "battery_level" = some (.num (755 / 10))) := by
  have h := c6_battery_unit_paths [("currentBatteryLevel", .num (755 / 1000))] (755 / 1000)
    (by simp [lookupJ]) (by constructor <;> norm_num)
    (Or.inl (by simp [lookupJ])) (Or.inl (by simp [lookupJ])) (Or.inl (by simp [lookupJ]))
  obtain ⟨h₁, h₂, attrs, h₃, h₄⟩ := h
  have hr : pyRound ((755 : ℚ) / 1000 * 100) 1 = (755 : ℚ) / 10 := by
    have := pyRound_eq_of_intCast ((755 : ℚ) / 1000 * 100) 1 755 (by norm_num)
    simpa using this
  rw [if_neg (by norm_num), hr] at h₄
  exact ⟨h₁, h₂, attrs, h₃, h₄⟩

theorem takeWhile_all_append {p : Char → Bool} {xs : List Char} (ys : List Char)
    (h : ∀ x ∈ xs, p x = true) :
    (xs ++ ys).takeWhile p = xs ++ ys.takeWhile p := by
  induction xs with
  | nil => simp
  | cons a as ih =>
    have ha : p a = true := h a (List.mem_cons_self a as)
    simp only [List.cons_append, List.takeWhile_cons, ha, if_true]
    rw [ih fun x hx => h x (List.mem_cons_of_mem a hx)]

theorem dropWhile_all_append {p : Char → Bool} {xs : List Char} (ys : List Char)
    (h : ∀ x ∈ xs, p x = true) :
    (xs ++ ys).dropWhile p = ys.dropWhile p := by
  induction xs with
  | nil => simp
  | cons a as ih =>
    have ha : p a = true := h a (List.mem_cons_self a as)
    simp only [List.cons_append, List.dropWhile_cons, ha, if_true]
    exact ih fun x hx => h x (List.mem_cons_of_mem a hx)

theorem afterSchemeSep_append_no_colon {xs : List Char} (ys : List Char)
    (h : ∀ x ∈ xs, x ≠ ':') :
    afterSchemeSep (xs ++ ys) = afterSchemeSep ys := by
  induction xs with
  | nil => simp
  | cons a as ih =>
    have ha : a ≠ ':' := h a (List.mem_cons_self a as)
    rw [List.cons_append, afterSchemeSep, if_neg (by simp [ha])]
    exact ih fun x hx => h x (List.mem_cons_of_mem a hx)

theorem afterSchemeSep_sep (rest : List Char) :
    afterSchemeSep (':' :: '/' :: '/' :: rest) = some rest := by
  rw [afterSchemeSep, if_pos (by simp)]
  simp

theorem findA_append_no_slash {xs : List Char} (ys : List Char)
    (h : ∀ x ∈ xs, x ≠ '/') :
    findA (xs ++ ys) = findA ys := by
  induction xs with
  | nil => simp
  | cons a as ih =>
    have ha : a ≠ '/' := h a (List.mem_cons_self a as)
    rw [List.cons_append, findA, if_neg (by simp [ha])]
    exact ih fun x hx => h x (List.mem_cons_of_mem a hx)

/-- On a path of the shape `/<lang>/a/<token><rest>` — `lang` free of
`/` and not the single letter `a`, `token` nonempty and free of `/`,
`rest` empty or starting with `/` — the leftmost `/a/` match captures
exactly `token`. -/
theorem findA_lang (L T R : List Char)
    (hL : ∀ c ∈ L, c ≠ '/') (hLa : L ≠ ['a'])
    (hT : T ≠ []) (hTs : ∀ c ∈ T, c ≠ '/')
    (hR : R = [] ∨ ∃ r, R = '/' :: r) :
    findA ('/' :: (L ++ '/' :: 'a' :: '/' :: (T ++ R))) = some T := by
  have htw : (T ++ R).takeWhile (fun c => c ≠ '/') = T := by
    rw [takeWhile_all_append R (by intro x hx; simpa using hTs x hx)]
    rcases hR with h | ⟨r, h⟩ <;> subst h <;> simp
  have hdrop : (('a' :: '/' :: (T ++ R)).drop 2) = T ++ R := rfl
  have hlen : ((('a' :: '/' :: (T ++ R)).drop 2).takeWhile (fun c => c ≠ '/')).length ≠ 0 := by
    rw [hdrop]
    show ((T ++ R).takeWhile (fun c => c ≠ '/')).length ≠ 0
    rw [htw]
    simpa [List.length_eq_zero] using hT
  have hmid : findA ('/' :: 'a' :: '/' :: (T ++ R)) = some T := by
    rw [findA, if_pos ⟨rfl, rfl, hlen⟩, hdrop]
    show some ((T ++ R).takeWhile (fun c => c ≠ '/')) = some T
    rw [htw]
  have htake : (L ++ '/' :: 'a' :: '/' :: (T ++ R)).take 2 ≠ ['a', '/'] := by
    match L, hL, hLa with
    | [], _, _ => simp
    | [x], hL, hLa =>
      have : x ≠ 'a' := by
        intro h
        exact hLa (by rw [h])
      simp [this]
    | x :: y :: L', hL, _ =>
      have : y ≠ '/' := hL y (by simp)
      simp [List.take, this]
  rw [findA, if_neg (by simp [htake]), findA_append_no_slash _ hL, hmid]

/-- List-level core of C5: on URLs of the shape
`[@]https://rider.live/<lang>/a/<token><rest>`, the extraction of
`LibertyRiderCoordinator.__init__` produces exactly `<token>`. -/
theorem extractTokenL_shape (atp L T R : List Char)
    (hat : atp = [] ∨ atp = ['@'])
    (hL : ∀ c ∈ L, c ≠ '/' ∧ c ≠ '?' ∧ c ≠ '#') (hLa : L ≠ ['a'])
    (hT : T ≠ []) (hTs : ∀ c ∈ T, c ≠ '/' ∧ c ≠ '?' ∧ c ≠ '#')
    (hR : R = [] ∨ R.head? = some '/' ∨ R.head? = some '?' ∨ R.head? = some '#') :
    extractTokenL (atp ++ "https://rider.live/".data ++ L ++ "/a/".data ++ T ++ R) = some T := by
  have hstrip : stripAt (atp ++ "https://rider.live/".data ++ L ++ "/a/".data ++ T ++ R)
      = "https://rider.live/".data ++ L ++ "/a/".data ++ T ++ R := by
    rcases hat with h | h <;> subst h <;> rfl
  set R' : List Char := (R.takeWhile (fun c => c ≠ '#')).takeWhile (fun c => c ≠ '?') with hR'
  have hRshape : R' = [] ∨ ∃ r, R' = '/' :: r := by
    rcases hR with h | h | h | h
    · subst h
      left
      rfl
    · obtain ⟨tl, htl⟩ : ∃ tl, R = '/' :: tl := by
        cases R with
        | nil => simp at h
        | cons a tl => exact ⟨tl, by simpa using congrArg (fun o => o.elim ('/' :: tl) (· :: tl)) h⟩
      right
      refine ⟨(tl.takeWhile (fun c => c ≠ '#')).takeWhile (fun c => c ≠ '?'), ?_⟩
      rw [hR', htl]
      simp
    · obtain ⟨tl, htl⟩ : ∃ tl, R = '?' :: tl := by
        cases R with
        | nil => simp at h
        | cons a tl => exact ⟨tl, by simpa using congrArg (fun o => o.elim ('?' :: tl) (· :: tl)) h⟩
      left
      rw [hR', htl]
      simp
    · obtain ⟨tl, htl⟩ : ∃ tl, R = '#' :: tl := by
        cases R with
        | nil => simp at h
        | cons a tl => exact ⟨tl, by simpa using congrArg (fun o => o.elim ('#' :: tl) (· :: tl)) h⟩
      left
      rw [hR', htl]
      simp
  have hall₁ : ∀ c ∈ "https://rider.live/".data ++ L ++ "/a/".data ++ T,
      (fun c => decide (c ≠ '#')) c = true := by
    intro c hc
    simp only [List.append_assoc, List.mem_append] at hc
    rcases hc with hc | hc | hc | hc
    · fin_cases hc <;> simp
    · simpa using (hL c hc).2.2
    · fin_cases hc <;> simp
    · simpa using (hTs c hc).2.2
  have hall₂ : ∀ c ∈ "https://rider.live/".data ++ L ++ "/a/".data ++ T,
      (fun c => decide (c ≠ '?')) c = true := by
    intro c hc
    simp only [List.append_assoc, List.mem_append] at hc
    rcases hc with hc | hc | hc | hc
    · fin_cases hc <;> simp
    · simpa using (hL c hc).2.1
    · fin_cases hc <;> simp
    · simpa using (hTs c hc).2.1
  have hcut : ((("https://rider.live/".data ++ L ++ "/a/".data ++ T ++ R).takeWhile
        (fun c => c ≠ '#')).takeWhile (fun c => c ≠ '?'))
      = "https".data ++ (':' :: '/' :: '/' ::
          (("rider.live".data ++ ('/' :: (L ++ ('/' :: 'a' :: '/' :: (T ++ R'))))))) := by
    rw [takeWhile_all_append R hall₁, takeWhile_all_append _ hall₂, ← hR']
    simp [List.append_assoc]
  unfold extractTokenL urlPathL
  rw [hstrip, hcut]
  rw [afterSchemeSep_append_no_colon _ (by intro x hx; fin_cases hx <;> simp),
    afterSchemeSep_sep]
  show findA (List.dropWhile (fun c => c ≠ '/')
      ("rider.live".data ++ ('/' :: (L ++ ('/' :: 'a' :: '/' :: (T ++ R')))))) = some T
  rw [dropWhile_all_append _ (by intro x hx; fin_cases hx <;> simp)]
  rw [List.dropWhile_cons, if_neg (by simp)]
  exact findA_lang L T R' (fun c hc => (hL c hc).1) hLa hT (fun c hc => (hTs c hc).1) hRshape

/-- C5 counterexample: `https://rider.live/a/a/XYZ` is of the form
`https://rider.live/<lang>/a/<TOKEN>` with `lang = "a"`, `TOKEN = "XYZ"`
(the only decomposition, since a token may not contain `/`), yet the
leftmost-match regex captures `"a"`, not `"XYZ"`. -/
theorem c5_counterexample :
    extractShareId "https://rider.live/a/a/XYZ" = .ok "a" ∧
    extractShareId "https://rider.live/a/a/XYZ" ≠ .ok "XYZ" := by
  have heq : extractShareId "https://rider.live/a/a/XYZ" = .ok "a" := rfl
  refine ⟨heq, ?_⟩
  intro h
  rw [heq] at h
  simp at h

/-- C5 (amended): for every URL
`[@]https://rider.live/<lang>/a/<TOKEN><rest>` — `TOKEN` nonempty and
free of `/`, `?`, `#`; `rest` empty or a query, fragment, or trailing
path part; and the language segment free of `/`, `?`, `#` and not the
single letter `a` — construction-time extraction yields exactly `TOKEN`:
one leading `@` is stripped and matching is done on the URL's path
component only. -/
theorem c5_token_extraction (atp lang tok r : String)
    (hat : atp = "" ∨ atp = "@")
    (hlang : ∀ c ∈ lang.data, c ≠ '/' ∧ c ≠ '?' ∧ c ≠ '#') (hlanga : lang ≠ "a")
    (htok : tok ≠ "") (htokc : ∀ c ∈ tok.data, c ≠ '/' ∧ c ≠ '?' ∧ c ≠ '#')
    (hr : r = "" ∨ r.data.head? = some '/' ∨ r.data.head? = some '?' ∨
      r.data.head? = some '#') :
    extractShareId (atp ++ "https://rider.live/" ++ lang ++ "/a/" ++ tok ++ r) = .ok tok := by
  have hdata : (atp ++ "https://rider.live/" ++ lang ++ "/a/" ++ tok ++ r).data
      = atp.data ++ "https://rider.live/".data ++ lang.data ++ "/a/".data ++ tok.data
        ++ r.data := by
    simp [String.data_append]
  have hat' : atp.data = [] ∨ atp.data = ['@'] := by
    rcases hat with h | h <;> subst h
    · left
      rfl
    · right
      rfl
  have hlanga' : lang.data ≠ ['a'] := by
    intro h
    exact hlanga (by cases lang; simpa [String.ext_iff] using h)
  have htok' : tok.data ≠ [] := by
    intro h
    exact htok (by cases tok; simpa [String.ext_iff] using h)
  have hr' : r.data = [] ∨ r.data.head? = some '/' ∨ r.data.head? = some '?' ∨
      r.data.head? = some '#' := by
    rcases hr with h | h | h | h
    · left
      rw [h]
    · right
      left
      exact h
    · right
      right
      left
      exact h
    · right
      right
      right
      exact h
  have := extractTokenL_shape atp.data lang.data tok.data r.data hat' hlang hlanga' htok'
    htokc hr'
  unfold extractShareId
  rw [hdata, this]

/-- C5 witness: a leading `@`, a tracking query string, the language
segment `fr` and token `ABC123` extract to exactly `ABC123`. -/
theorem c5_token_extraction_witness :
    extractShareId "@https://rider.live/fr/a/ABC123?utm_source=x" = .ok "ABC123" := by
  have h := c5_token_extraction "@" "fr" "ABC123" "?utm_source=x" (Or.inr rfl)
    (by decide) (by decide) (by decide) (by decide) (Or.inr (Or.inr (Or.inl rfl)))
  have heq : "@" ++ "https://rider.live/" ++ "fr" ++ "/a/" ++ "ABC123" ++ "?utm_source=x"
      = "@https://rider.live/fr/a/ABC123?utm_source=x" := rfl
  rw [heq] at h
  exact h

/-- A successful regex match yields a decomposition of the input around
`/a/` with a nonempty slash-free captured group. -/
theorem findA_some_decomp {cs g : List Char} (h : findA cs = some g) :
    ∃ l r, cs = l ++ '/' :: 'a' :: '/' :: (g ++ r) ∧ g ≠ [] ∧ ∀ c ∈ g, c ≠ '/' := by
  induction cs with
  | nil => simp [findA] at h
  | cons c rest ih =>
    rw [findA] at h
    split at h
    · next hcond =>
      obtain ⟨hc, htake, hlen⟩ := hcond
      obtain ⟨rest', hrest⟩ : ∃ rest', rest = 'a' :: '/' :: rest' := by
        cases rest with
        | nil => simp at htake
        | cons x xs =>
          cases xs with
          | nil => simp [List.take] at htake
          | cons y ys =>
            simp [List.take] at htake
            exact ⟨ys, by rw [htake.1, htake.2]⟩
      subst hrest
      subst hc
      have hg : g = rest'.takeWhile (fun c => c ≠ '/') := by
        simpa using h.symm
      refine ⟨[], rest'.dropWhile (fun c => c ≠ '/'), ?_, ?_, ?_⟩
      · rw [hg]
        simp [List.takeWhile_append_dropWhile]
      · rw [hg]
        intro hnil
        apply hlen
        rw [show ('a' :: '/' :: rest').drop 2 = rest' from rfl, hnil]
        rfl
      · intro x hx
        rw [hg] at hx
        have := List.mem_takeWhile_imp hx
        simpa using this
    · obtain ⟨l, r, heq, hne, hmem⟩ := ih h
      exact ⟨c :: l, r, by rw [heq]; rfl, hne, hmem⟩

/-- Conversely, any `/a/<token>` decomposition guarantees the regex
finds some match. -/
theorem findA_decomp_some (l t r : List Char) (ht : t ≠ []) (hts : ∀ c ∈ t, c ≠ '/') :
    ∃ g, findA (l ++ '/' :: 'a' :: '/' :: (t ++ r)) = some g := by
  induction l with
  | nil =>
    obtain ⟨c, t', hct⟩ : ∃ c t', t = c :: t' := by
      cases t with
      | nil => exact absurd rfl ht
      | cons c t' => exact ⟨c, t', rfl⟩
    have hc : c ≠ '/' := hts c (by rw [hct]; exact List.mem_cons_self c t')
    rw [List.nil_append, findA, if_pos]
    · exact ⟨_, rfl⟩
    · refine ⟨rfl, rfl, ?_⟩
      show ((('a' :: '/' :: (t ++ r)).drop 2).takeWhile (fun c => c ≠ '/')).length ≠ 0
      rw [show ('a' :: '/' :: (t ++ r)).drop 2 = t ++ r from rfl, hct, List.cons_append,
        List.takeWhile_cons, if_pos (by simpa using hc)]
      simp
  | cons a l' ih =>
    rw [List.cons_append, findA]
    split
    · exact ⟨_, rfl⟩
    · exact ih

/-- C4 counterexample: the coordinator constructor performs no
base-domain check — `https://evil.com/a/XYZ` does not start with
`BASE_URL`, yet construction succeeds with share id `XYZ` instead of
failing with the invalid-URL error. -/
theorem c4_counterexample :
    pyStartsWith "https://evil.com/a/XYZ" BASE_URL = false ∧
    extractShareId "https://evil.com/a/XYZ" = .ok "XYZ" := by
  exact ⟨by decide, rfl⟩

/-- C4 (amended): the base-domain check lives in the config flow, not in
coordinator construction.  (1) The config flow rejects any URL not
starting with `BASE_URL` with error key `invalid_url`; (2) it rejects
base-domain URLs whose full text contains no `/a/<token>` with
`invalid_url_format`; (3) coordinator construction fails with the
invalid-format `ValueError` exactly on URLs whose parsed path contains
no `/a/<token>` segment — with no domain check of its own. -/
theorem c4_url_error_paths :
    (∀ url : String, pyStartsWith url BASE_URL = false →
      asyncStepUserCheck url = .errorBase "invalid_url") ∧
    (∀ url : String, pyStartsWith url BASE_URL = true →
      (¬ ∃ l t r, url.data = l ++ '/' :: 'a' :: '/' :: (t ++ r) ∧ t ≠ [] ∧
        ∀ c ∈ t, c ≠ '/') →
      asyncStepUserCheck url = .errorBase "invalid_url_format") ∧
    (∀ url : String,
      (¬ ∃ l t r, urlPathL (stripAt url.data) = l ++ '/' :: 'a' :: '/' :: (t ++ r) ∧
        t ≠ [] ∧ ∀ c ∈ t, c ≠ '/') →
      extractShareId url = .error "Invalid share URL format") := by
  refine ⟨?_, ?_, ?_⟩
  · intro url h
    unfold asyncStepUserCheck
    rw [if_pos (by simp [h])]
  · intro url h hno
    unfold asyncStepUserCheck
    rw [if_neg (by simp [h])]
    cases hfa : findA url.data with
    | none => rfl
    | some g =>
      obtain ⟨l, r, heq, hne, hmem⟩ := findA_some_decomp hfa
      exact absurd ⟨l, g, r, heq, hne, hmem⟩ hno
  · intro url hno
    unfold extractShareId extractTokenL
    cases hfa : findA (urlPathL (stripAt url.data)) with
    | none => rfl
    | some g =>
      obtain ⟨l, r, heq, hne, hmem⟩ := findA_some_decomp hfa
      exact absurd ⟨l, g, r, heq, hne, hmem⟩ hno

/-- C4 witness: `http://example.com/a/x` is rejected as `invalid_url`;
`https://rider.live/fr/share` as `invalid_url_format`; and coordinator
construction on `https://rider.live/fr/share` raises the invalid-format
`ValueError`. -/
theorem c4_url_error_paths_witness :
    asyncStepUserCheck "http://example.com/a/x" = .errorBase "invalid_url" ∧
    asyncStepUserCheck "https://rider.live/fr/share" = .errorBase "invalid_url_format" ∧
    extractShareId "https://rider.live/fr/share" = .error "Invalid share URL format" := by
  have hnone₁ : findA ("https://rider.live/fr/share" : String).data = none := rfl
  have hnone₂ : findA (urlPathL (stripAt ("https://rider.live/fr/share" : String).data))
      = none := rfl
  refine ⟨c4_url_error_paths.1 _ (by decide), ?_, ?_⟩
  · refine c4_url_error_paths.2.1 _ (by decide) ?_
    rintro ⟨l, t, r, heq, ht, hts⟩
    obtain ⟨g, hg⟩ := findA_decomp_some l t r ht hts
    rw [← heq, hnone₁] at hg
    cases hg
  · refine c4_url_error_paths.2.2 _ ?_
    rintro ⟨l, t, r, heq, ht, hts⟩
    obtain ⟨g, hg⟩ := findA_decomp_some l t r ht hts
    rw [← heq, hnone₂] at hg
    cases hg

theorem applyRefresh_failed (st : CoordState) (k : FailureKind) :
    applyRefresh st (.failed k) = { data := st.data, lastUpdateSuccess := false } := rfl

/-- C1: every failure condition of a poll attempt — a fetch-level
exception (network error, timeout, malformed JSON), a non-2xx HTTP
status, a top-level `errors` field, or a missing `data.ride` — makes
`_async_update_data` raise a classified `UpdateFailed` (never a
success), so the coordinator keeps the cached snapshot unchanged and
flips availability to false. -/
theorem c1_poll_failures_classified (f : FetchResult) (st : CoordState)
    (h : failureCondition f) :
    ∃ k, asyncUpdateData f = .failed k ∧
      applyRefresh st (asyncUpdateData f) = { data := st.data, lastUpdateSuccess := false } := by
  suffices hsuff : ∃ k, asyncUpdateData f = .failed k by
    obtain ⟨k, hk⟩ := hsuff
    exact ⟨k, hk, by rw [hk]; rfl⟩
  cases f with
  | exc m => exact ⟨.exception, rfl⟩
  | resp status et body =>
    by_cases hs : status = 200
    · subst hs
      rcases h with h | h | h | h
      · exact absurd ⟨by norm_num, by norm_num⟩ h
      · obtain ⟨e, he⟩ := h
        subst he
        exact ⟨.exception, rfl⟩
      · obtain ⟨fs, hb, hk⟩ := h
        subst hb
        obtain ⟨v, hv⟩ := Option.isSome_iff_exists.mp hk
        refine ⟨.protocol, ?_⟩
        simp [asyncUpdateData, pyInOp, pySubStr, hv]
      · obtain ⟨d, hb, hride⟩ := h
        subst hb
        cases d with
        | null => exact ⟨.exception, rfl⟩
        | bool b => exact ⟨.exception, rfl⟩
        | int z => exact ⟨.exception, rfl⟩
        | num q => exact ⟨.exception, rfl⟩
        | str s =>
          cases hsc : strContains s "errors" with
          | true => exact ⟨.exception, by simp [asyncUpdateData, pyInOp, hsc, pySubStr]⟩
          | false => exact ⟨.exception, by simp [asyncUpdateData, pyInOp, hsc, pyGetD]⟩
        | arr xs =>
          cases hsc : xs.any (jEq (.str "errors")) with
          | true => exact ⟨.exception, by simp [asyncUpdateData, pyInOp, hsc, pySubStr]⟩
          | false => exact ⟨.exception, by simp [asyncUpdateData, pyInOp, hsc, pyGetD]⟩
        | obj fs =>
          cases hk : lookupJ fs "errors" with
          | some v =>
            exact ⟨.protocol, by simp [asyncUpdateData, pyInOp, hk, pySubStr]⟩
          | none =>
            cases hd : lookupJ fs "data" with
            | none =>
              exact ⟨.emptyResult,
                by simp [asyncUpdateData, pyInOp, hk, pyGetD, hd, pyGet, lookupJ, truthy]⟩
            | some v =>
              cases v with
              | obj fs₂ =>
                have hr : lookupJ fs₂ "ride" = none ∨ lookupJ fs₂ "ride" = some .null := by
                  simpa [lookupRide, hd] using hride
                rcases hr with hr | hr
                · exact ⟨.emptyResult,
                    by simp [asyncUpdateData, pyInOp, hk, pyGetD, hd, pyGet, hr, truthy]⟩
                · exact ⟨.emptyResult,
                    by simp [asyncUpdateData, pyInOp, hk, pyGetD, hd, pyGet, hr, truthy]⟩
              | null =>
                exact ⟨.exception, by simp [asyncUpdateData, pyInOp, hk, pyGetD, hd, pyGet]⟩
              | bool b =>
                exact ⟨.exception, by simp [asyncUpdateData, pyInOp, hk, pyGetD, hd, pyGet]⟩
              | int z =>
                exact ⟨.exception, by simp [asyncUpdateData, pyInOp, hk, pyGetD, hd, pyGet]⟩
              | num q =>
                exact ⟨.exception, by simp [asyncUpdateData, pyInOp, hk, pyGetD, hd, pyGet]⟩
              | str s =>
                exact ⟨.exception, by simp [asyncUpdateData, pyInOp, hk, pyGetD, hd, pyGet]⟩
              | arr xs =>
                exact ⟨.exception, by simp [asyncUpdateData, pyInOp, hk, pyGetD, hd, pyGet]⟩
    · exact ⟨.transport status, by simp [asyncUpdateData, hs]⟩

/-- C1 witness: an HTTP 500 response is a failure condition; the poll
fails as a transport failure, the cached snapshot `{"old": 1}` is kept
and availability flips to false. -/
theorem c1_poll_failures_classified_witness :
    failureCondition (.resp 500 "boom" (.ok .null)) ∧
    ∃ k, asyncUpdateData (.resp 500 "boom" (.ok .null)) = .failed k ∧
      applyRefresh { data := .obj [("old", .num 1)], lastUpdateSuccess := true }
        (asyncUpdateData (.resp 500 "boom" (.ok .null)))
      = { data := .obj [("old", .num 1)], lastUpdateSuccess := false } := by
  have hfc : failureCondition (.resp 500 "boom" (.ok .null)) := by
    left
    intro hcon
    exact absurd hcon.2 (by norm_num)
  exact ⟨hfc, c1_poll_failures_classified (.resp 500 "boom" (.ok .null))
    { data := .obj [("old", .num 1)], lastUpdateSuccess := true } hfc⟩
